import Mathlib

/-!
Verification of the Baltimore-Lifeline data-normalization pipelines.

Shallow embedding of:
  * `map/views.py` — spreadsheet ingestion (`_to_float`, `grab`,
    `to_bool_flag`, the row loop of `_load_resources_from_xlsx`);
  * `MISC/xlsx_processor.py` — the offline preparation utility
    (`norm_addr`, `geocode_addresses`, `classify_category`,
    `recategorize_categories`, `main`).

Spreadsheet cell values (as delivered by openpyxl / pandas) are modelled by
the inductive type `Cell`: a missing cell is `Cell.null` (Python `None`),
text cells are `Cell.str`, finite numeric cells are `Cell.num` over `ℚ`,
and a float NaN cell is `Cell.nan`.  Python string operations used by the
code (`strip`, `lower`, `split`, substring `in`) are given executable
models on `List Char`.
-/

/-- Python whitespace test for `str.strip` / `str.split` (ASCII range). -/
def isWs (c : Char) : Bool := c.isWhitespace

/-- Python `str.strip()`: drop leading and trailing whitespace. -/
def pyStrip (l : List Char) : List Char :=
  ((l.dropWhile isWs).reverse.dropWhile isWs).reverse

/-- Python `str.lower()` (the code only lower-cases ASCII headers/keywords). -/
def pyLower (l : List Char) : List Char := l.map Char.toLower

/-- Helper for `pyWords`: accumulates the current word reversed. -/
def wordsAux : List Char → List Char → List (List Char)
  | [], cur => if cur.isEmpty then [] else [cur.reverse]
  | c :: rest, cur =>
    if isWs c then
      if cur.isEmpty then wordsAux rest [] else cur.reverse :: wordsAux rest []
    else wordsAux rest (c :: cur)

/-- Python `str.split()` with no argument: words separated by whitespace runs. -/
def pyWords (l : List Char) : List (List Char) := wordsAux l []

/-- Python `" ".join(ws)` on a list of words. -/
def joinWords (ws : List (List Char)) : List Char := List.intercalate [' '] ws

/-- Test that `pat` matches at the front of `s` (character-by-character). -/
def matchesAt : List Char → List Char → Bool
  | [], _ => true
  | _ :: _, [] => false
  | a :: as, b :: bs => a == b && matchesAt as bs

/-- Python substring test `pat in s`. -/
def hasSub (pat : List Char) : List Char → Bool
  | [] => matchesAt pat []
  | c :: rest => matchesAt pat (c :: rest) || hasSub pat rest

/- ----------------------------------------------------------------- -/
/- Cell values -/

/-- One spreadsheet cell as seen by the Python code:
`null` = Python `None`, `str` = a text cell, `num` = a finite number
(int or float, modelled in `ℚ`), `nan` = a float NaN. -/
inductive Cell where
  | null
  | str (s : String)
  | num (q : ℚ)
  | nan
deriving DecidableEq

/-- Python `str(v)` on a cell value.  Text cells render as themselves,
`None` as `"None"`, NaN as `"nan"`; finite numbers render through `ℚ`
(integral values as the integer, which models `str` on int cells; the
code never depends on the exact rendering of non-integral numbers). -/
def pyStr (c : Cell) : String :=
  match c with
  | Cell.null => "None"
  | Cell.str s => s
  | Cell.num q => if q.den == 1 then toString q.num else toString q
  | Cell.nan => "nan"

/-- Python `pd.isna` / openpyxl missing-value test: `None` and NaN are NA. -/
def cellIsna (c : Cell) : Bool :=
  match c with
  | Cell.null => true
  | Cell.nan => true
  | _ => false

/- ----------------------------------------------------------------- -/
/- Python float() on strings (used by `_to_float`) -/

/-- Numeric value of a run of decimal digits. -/
def natOfDigits (l : List Char) : Nat :=
  l.foldl (fun n c => n * 10 + (c.toNat - 48)) 0

/-- Parse an unsigned decimal literal `digits`, `digits.digits`,
`digits.` or `.digits` (the forms of float literals the spreadsheet
uses; Python's `float` also accepts exponents, which no cell here has). -/
def parseDecCore (l : List Char) : Option ℚ :=
  let ip := l.takeWhile Char.isDigit
  let rest := l.dropWhile Char.isDigit
  match rest with
  | [] => if ip.isEmpty then Option.none else Option.some (natOfDigits ip : ℚ)
  | c :: frac =>
    if c == '.' && frac.all Char.isDigit && !(ip.isEmpty && frac.isEmpty) then
      Option.some ((natOfDigits ip : ℚ) + (natOfDigits frac : ℚ) / (10 : ℚ) ^ frac.length)
    else
      Option.none

/-- Python `float(s)` on a string, `Option.none` when it raises. -/
def pyFloatOfString (s : String) : Option ℚ :=
  match pyStrip s.data with
  | '+' :: r => parseDecCore r
  | '-' :: r => (parseDecCore r).map Neg.neg
  | t => parseDecCore t

/-- Model of `views._to_float`: safe float conversion; `Option.none` when the value
is missing, NaN, or not convertible. -/
def _to_float (c : Cell) : Option ℚ :=
  match c with
  | Cell.null => Option.none
  | Cell.nan => Option.none
  | Cell.num q => Option.some q
  | Cell.str s => pyFloatOfString s

/- ----------------------------------------------------------------- -/
/- xlsx_processor.classify_category -/

/-- Python `str(text).strip().lower()` — the normalized form the classifier
matches keywords against. -/
def pyNorm (c : Cell) : List Char := pyLower (pyStrip (pyStr c).data)

/-- Python `any(k in s for k in kws)` — some keyword occurs as a substring. -/
def hasAnyKeyword (s : List Char) (kws : List String) : Bool :=
  kws.any (fun k => hasSub k.data s)

def veteranKws : List String := ["veteran", "va health", "va clinic"]

def safetyKws : List String :=
  ["domestic violence", "dv", "sexual assault", "intimate partner",
   "safe house", "violence", "trafficking"]

def behavioralKws : List String :=
  ["behavioral health", "mental health", "psychiat", "counseling",
   "crisis", "hotline", "suicide", "harm reduction", "overdose",
   "substance use", "addiction", "recovery", "mat program", "peer support"]

def physicalKws : List String :=
  ["healthcare", "health care", "health center", "clinic", "medical",
   "hospital", "fqh", "fqhc", "sliding scale", "charity care",
   "vision", "dental", "women/lgbtq", "lgbtq+ health"]

def housingKws : List String :=
  ["shelter", "housing", "supportive housing", "emergency shelter",
   "transitional", "safe haven", "overnight", "rapid rehousing",
   "tenant", "landlord", "homeownership", "home repair"]

def foodKws : List String :=
  ["food", "pantry", "soup kitchen", "meal", "meals",
   "groceries", "grocery", "clothing", "clothes",
   "basic needs", "essentials", "household goods",
   "day center", "day resource"]

def financialKws : List String :=
  ["benefits", "assistance program", "financial assistance",
   "cash", "income support", "tax credit", "tax help",
   "utility assistance", "utilities", "electric", "gas bill",
   "water bill", "communications discount", "lifeline",
   "digital access", "internet", "broadband"]

def employmentKws : List String :=
  ["employment", "job", "jobs", "career", "workforce",
   "training", "job training", "vocational", "rehabilitation",
   "apprentice", "internship", "resume", "interview skills",
   "youth employment", "summer jobs", "education/employment",
   "ged", "adult education"]

def youthKws : List String :=
  ["youth", "teen", "family", "child", "children",
   "early childhood", "family support", "parenting",
   "mentor", "drop-in", "advocacy",
   "community space", "community center",
   "culture & food access", "community services"]

/-- Model of `xlsx_processor.classify_category`: keyword classifier mapping a raw
category-of-help cell to one of ten broad categories, trying the
categories in the source's fixed order. -/
def classify_category (text : Cell) : String :=
  if cellIsna text then "Other / Uncategorized"
  else
    let s := pyNorm text
    if hasAnyKeyword s veteranKws then "Veteran Services"
    else if hasAnyKeyword s safetyKws then "Safety & Anti-Violence"
    else if hasAnyKeyword s behavioralKws then "Behavioral Health, Substance Use, & Crisis"
    else if hasAnyKeyword s physicalKws then "Physical & General Health Care"
    else if hasAnyKeyword s housingKws then "Housing & Shelter"
    else if hasAnyKeyword s foodKws then "Food & Essential Needs"
    else if hasAnyKeyword s financialKws then "Financial & Access Support"
    else if hasAnyKeyword s employmentKws then "Employment, Training, & Education"
    else if hasAnyKeyword s youthKws then "Youth, Family, & General Support Services"
    else "Other / Uncategorized"

/-- The classifier's priority list, earliest entry first, as the spec
states it: each category paired with its keyword set. -/
def categoryTable : List (String × List String) :=
  [("Veteran Services", veteranKws),
   ("Safety & Anti-Violence", safetyKws),
   ("Behavioral Health, Substance Use, & Crisis", behavioralKws),
   ("Physical & General Health Care", physicalKws),
   ("Housing & Shelter", housingKws),
   ("Food & Essential Needs", foodKws),
   ("Financial & Access Support", financialKws),
   ("Employment, Training, & Education", employmentKws),
   ("Youth, Family, & General Support Services", youthKws)]

/-- Spec-side rendering of the classifier contract: return the first
category in the priority list one of whose keywords occurs as a substring
of the lower-cased trimmed input, the fallback when none matches. -/
def classifyByPriority (text : Cell) : String :=
  if cellIsna text then "Other / Uncategorized"
  else
    match categoryTable.find? (fun p => hasAnyKeyword (pyNorm text) p.2) with
    | Option.some p => p.1
    | Option.none => "Other / Uncategorized"

/- ----------------------------------------------------------------- -/
/- views.py ingestion: header aliasing and row normalization -/

/-- Model of `views.norm`: `" ".join(str(s).strip().lower().split())` — lower-case
and collapse whitespace runs, used on headers and alias names. -/
def normName (s : String) : List Char :=
  joinWords (pyWords (pyLower (pyStrip s.data)))

/-- Lookup in `header_map`, the dict built by the comprehension over the headers, so
a later header with the same normalized name overwrites an earlier one. -/
def hmGet (headers : List String) (key : List Char) : Option Nat :=
  headers.enum.foldl
    (fun acc p => if normName p.2 == key then Option.some p.1 else acc)
    Option.none

/-- Model of `views.grab`: pull a cell by any of the given header names; an alias
whose header is absent, whose column index is beyond the row, or whose
cell is `None` is passed over; the default is returned when no alias
yields a value. -/
def grab (headers : List String) (row : List Cell) (names : List String)
    (dflt : Cell) : Cell :=
  match names with
  | [] => dflt
  | n :: rest =>
    match hmGet headers (normName n) with
    | Option.some idx =>
      match row.get? idx with
      | Option.some Cell.null => grab headers row rest dflt
      | Option.some v => v
      | Option.none => grab headers row rest dflt
    | Option.none => grab headers row rest dflt

/-- Python set membership `s in {...}` for a normalized token. -/
def tokenIn (l : List Char) (toks : List String) : Bool :=
  toks.any (fun t => l == t.data)

/-- Model of `views.to_bool_flag`: tri-state parse of a yes/no cell
(`Option.none` is the unknown state). -/
def to_bool_flag (v : Cell) : Option Bool :=
  match v with
  | Cell.null => Option.none
  | _ =>
    let s := pyLower (pyStrip (pyStr v).data)
    if tokenIn s ["yes", "y", "true", "1"] then Option.some true
    else if tokenIn s ["no", "n", "false", "0"] then Option.some false
    else Option.none

/-- Python `str(c).strip()` as a Lean `String`. -/
def stripStr (c : Cell) : String := String.mk (pyStrip (pyStr c).data)

/-- The blank test on the ID cell: `rid is None or str(rid).strip() == ""`. -/
def cellBlank (c : Cell) : Bool :=
  match c with
  | Cell.null => true
  | _ => stripStr c == ""

/-- One normalized output record, the dict built at the end of the row
loop of `views._load_resources_from_xlsx`. -/
structure Resource where
  id : Cell
  name : String
  lat : ℚ
  lng : ℚ
  category : String
  phone_number : String
  address : String
  email : String
  description : String
  restrictions : String
  days : String
  link : String
  legit : Option Bool
  confirmed : Option Bool
  reliability : String
  call_notes : String
deriving DecidableEq

/-- The loop state of `_load_resources_from_xlsx`: the accumulated
records and the two diagnostics counters touched by the loop. -/
structure LoadState where
  resources : List Resource
  skipped_no_coords : Nat
  bad_latlng : Nat
deriving DecidableEq

def initState : LoadState := ⟨[], 0, 0⟩

def latAliases : List String := ["Latitude", "Lat"]
def lngAliases : List String := ["Longitude", "Lng", "Long"]
def idAliases : List String := ["ID", "id"]
def reliabilityAliases : List String :=
  ["Reliability Rate 1-10", "Reliability Rate 1–10", "Reliability"]

/-- The record built for a row that passed both coordinate checks;
`nKept` is `len(resources)` at that point. -/
def mkResource (hs : List String) (row : List Cell) (nKept : Nat)
    (lat lng : ℚ) : Resource :=
  let name := stripStr (grab hs row ["Name of Service", "Name"] (Cell.str ""))
  let address := stripStr (grab hs row ["Address"] (Cell.str ""))
  let phone := stripStr (grab hs row ["Phone Number", "Phone"] (Cell.str ""))
  let email := stripStr (grab hs row ["Email"] (Cell.str ""))
  let category0 :=
    stripStr (grab hs row ["Cateogry of Help", "Category of Help", "Category"] (Cell.str ""))
  let category := if category0 = "" then "Uncategorized" else category0
  let desc := stripStr (grab hs row ["Description"] (Cell.str ""))
  let restrictions := stripStr (grab hs row ["Restrictions of Service"] (Cell.str ""))
  let days := stripStr (grab hs row ["Days of Service"] (Cell.str ""))
  let link := stripStr (grab hs row ["link to site", "Website", "Link"] (Cell.str ""))
  let legit_raw := grab hs row ["Legitimate place?", "Legitimate place ?"] (Cell.str "")
  let confirmed_raw := grab hs row ["called + confirmed?", "called + confirmed ?"] (Cell.str "")
  let reliability_raw := stripStr (grab hs row reliabilityAliases (Cell.str ""))
  let reliability :=
    if reliability_raw = "" ∨ reliability_raw = "nan" ∨ reliability_raw = "none"
    then "na" else reliability_raw
  let call_exp := stripStr (grab hs row ["Call experience"] (Cell.str ""))
  let extra := stripStr (grab hs row ["Unnamed: 18"] (Cell.str ""))
  let call_notes := String.intercalate " | " ([call_exp, extra].filter (fun x => x != ""))
  let rid0 := grab hs row idAliases Cell.null
  let rid := if cellBlank rid0 then Cell.num ((nKept + 1 : ℕ) : ℚ) else rid0
  { id := rid
    name := if name = "" then "Unnamed resource" else name
    lat := lat
    lng := lng
    category := category
    phone_number := phone
    address := address
    email := email
    description := desc
    restrictions := restrictions
    days := days
    link := link
    legit := to_bool_flag legit_raw
    confirmed := to_bool_flag confirmed_raw
    reliability := reliability
    call_notes := call_notes }

/-- One iteration of the row loop of `_load_resources_from_xlsx`:
convert the coordinate cells, skip (counting) when either is absent or
the pair is out of range, otherwise append the normalized record. -/
def processRow (hs : List String) (st : LoadState) (row : List Cell) : LoadState :=
  match _to_float (grab hs row latAliases Cell.null),
        _to_float (grab hs row lngAliases Cell.null) with
  | Option.some lat, Option.some lng =>
    if -90 ≤ lat ∧ lat ≤ 90 ∧ -180 ≤ lng ∧ lng ≤ 180 then
      { st with resources :=
          st.resources ++ [mkResource hs row st.resources.length lat lng] }
    else { st with bad_latlng := st.bad_latlng + 1 }
  | _, _ => { st with skipped_no_coords := st.skipped_no_coords + 1 }

/-- The whole row loop over the data rows of the sheet. -/
def loadRows (hs : List String) (rows : List (List Cell)) : LoadState :=
  rows.foldl (processRow hs) initState

/-- A row passes both coordinate checks (and will be kept). -/
def keepsRow (hs : List String) (row : List Cell) : Bool :=
  match _to_float (grab hs row latAliases Cell.null),
        _to_float (grab hs row lngAliases Cell.null) with
  | Option.some lat, Option.some lng =>
    decide (-90 ≤ lat ∧ lat ≤ 90 ∧ -180 ≤ lng ∧ lng ≤ 180)
  | _, _ => false

/- ----------------------------------------------------------------- -/
/- xlsx_processor: dataframe model, geocoding pass, recategorization -/

/-- A pandas dataframe, modelled as named columns in order. -/
abbrev DF := List (String × List Cell)

def ADDRESS_COL : String := "Address"
def CATEGORY_COL : String := "Cateogry of Help"

/-- Python `col in df.columns` / `df[col]` read access. -/
def getCol (df : DF) (name : String) : Option (List Cell) :=
  (df.find? (fun p => p.1 == name)).map Prod.snd

/-- Python `df[col] = vals`: replace the column in place, or append a new one. -/
def setCol (df : DF) (name : String) (col : List Cell) : DF :=
  if (df.find? (fun p => p.1 == name)).isSome then
    df.map (fun p => if p.1 == name then (p.1, col) else p)
  else df ++ [(name, col)]

/-- Model of `xlsx_processor.norm_addr`: NA → empty; otherwise strip and collapse
whitespace runs to single spaces (`re.sub(r"\s+", " ", str(s).strip())`). -/
def norm_addr (c : Cell) : List Char :=
  if cellIsna c then []
  else joinWords (pyWords (pyStrip (pyStr c).data))

/-- The in-memory geocode cache `cache_map`: normalized query → (lat, lng). -/
abbrev GeoCache := List (List Char × ℚ × ℚ)

def cacheFind (cache : GeoCache) (k : List Char) : Option (ℚ × ℚ) :=
  (cache.find? (fun p => p.1 == k)).map Prod.snd

/-- Python `cache_map[addr] = (lat, lng)`: dict assignment. -/
def cacheInsert (cache : GeoCache) (k : List Char) (v : ℚ × ℚ) : GeoCache :=
  if (cache.find? (fun p => p.1 == k)).isSome then
    cache.map (fun p => if p.1 == k then (p.1, v) else p)
  else cache ++ [(k, v.1, v.2)]

/-- Python `pd.notna` on a cell. -/
def cellNotna (c : Cell) : Bool := !(cellIsna c)

/-- The three cells of one dataframe row the geocoding loop touches. -/
structure GRow where
  address : Cell
  lat : Cell
  lng : Cell
deriving DecidableEq

/-- The mutable state of the geocoding loop: the in-memory cache and the
`updated` counter of successful live lookups. -/
structure GeoState where
  cache : GeoCache
  updated : Nat
deriving DecidableEq

/-- One iteration of the loop of `xlsx_processor.geocode_addresses`
(lines 78–107): empty normalized address → untouched; both coordinates
already filled → untouched; else cache hit fills coordinates; else a live
lookup (`Option.none` = no result after retries) fills them and is
recorded in the cache and the `updated` counter.  `live` is the
rate-limited `geocode` callable. -/
def geoRow (live : List Char → Option (ℚ × ℚ)) (st : GeoState) (r : GRow) :
    GRow × GeoState :=
  let addr := norm_addr r.address
  if addr.isEmpty then (r, st)
  else if cellNotna r.lat && cellNotna r.lng then (r, st)
  else
    match cacheFind st.cache addr with
    | Option.some (la, ln) =>
      ({ r with lat := Cell.num la, lng := Cell.num ln }, st)
    | Option.none =>
      match live addr with
      | Option.some (la, ln) =>
        ({ r with lat := Cell.num la, lng := Cell.num ln },
         { cache := cacheInsert st.cache addr (la, ln), updated := st.updated + 1 })
      | Option.none => (r, st)

/-- The geocoding loop over all rows, threading the state. -/
def geoLoop (live : List Char → Option (ℚ × ℚ)) (st : GeoState) :
    List GRow → List GRow × GeoState
  | [] => ([], st)
  | r :: rest =>
    let p := geoRow live st r
    let q := geoLoop live p.2 rest
    (p.1 :: q.1, q.2)

/-- Model of `xlsx_processor.geocode_addresses` on a dataframe: raises
(`Except.error`) when the address column is missing; otherwise ensures
Latitude/Longitude columns exist, runs the loop, and returns the updated
dataframe with the final cache and the `updated` counter. -/
def geocode_addresses (live : List Char → Option (ℚ × ℚ)) (cache0 : GeoCache)
    (df : DF) : Except String (DF × GeoCache × Nat) :=
  match getCol df ADDRESS_COL with
  | Option.none =>
    Except.error ("Could not find the column '" ++ ADDRESS_COL ++ "' in the Excel file.")
  | Option.some addrCol =>
    let latCol := (getCol df "Latitude").getD (addrCol.map (fun _ => Cell.null))
    let lngCol := (getCol df "Longitude").getD (addrCol.map (fun _ => Cell.null))
    let rows := (addrCol.zip (latCol.zip lngCol)).map
      (fun p => GRow.mk p.1 p.2.1 p.2.2)
    let out := geoLoop live ⟨cache0, 0⟩ rows
    let df1 := setCol (setCol df "Latitude" (out.1.map GRow.lat))
      "Longitude" (out.1.map GRow.lng)
    Except.ok (df1, out.2.cache, out.2.updated)

def backupCol : String := CATEGORY_COL ++ " (Original)"

/-- Model of `xlsx_processor.recategorize_categories`: missing category column →
warn and return the dataframe unchanged; otherwise create the
"(Original)" backup column only when absent, then overwrite the category
column with the classifier's output. -/
def recategorize_categories (df : DF) : DF :=
  match getCol df CATEGORY_COL with
  | Option.none => df
  | Option.some catVals =>
    let df1 :=
      if (getCol df backupCol).isSome then df else setCol df backupCol catVals
    setCol df1 CATEGORY_COL (catVals.map (fun c => Cell.str (classify_category c)))

def RUN_GEOCODING : Bool := true
def RUN_RECAT : Bool := true

/-- Model of `xlsx_processor.main` after the input file is read: geocoding (its
error aborting the run), then recategorization, then the written output. -/
def mainPipeline (live : List Char → Option (ℚ × ℚ)) (cache0 : GeoCache)
    (df : DF) : Except String DF :=
  match (if RUN_GEOCODING then geocode_addresses live cache0 df
         else Except.ok (df, cache0, 0)) with
  | Except.error e => Except.error e
  | Except.ok out =>
    Except.ok (if RUN_RECAT then recategorize_categories out.1 else out.1)

/- ----------------------------------------------------------------- -/
/- Helper lemmas: the three outcomes of one ingestion-loop iteration -/

theorem processRow_skip (hs : List String) (st : LoadState) (row : List Cell)
    (h : _to_float (grab hs row latAliases Cell.null) = Option.none ∨
         _to_float (grab hs row lngAliases Cell.null) = Option.none) :
    processRow hs st row = { st with skipped_no_coords := st.skipped_no_coords + 1 } := by
  unfold processRow
  rcases h with h | h
  · rw [h]
  · cases hlat : _to_float (grab hs row latAliases Cell.null) <;> rw [h]

theorem processRow_bad (hs : List String) (st : LoadState) (row : List Cell)
    (a b : ℚ)
    (ha : _to_float (grab hs row latAliases Cell.null) = Option.some a)
    (hb : _to_float (grab hs row lngAliases Cell.null) = Option.some b)
    (hr : ¬(-90 ≤ a ∧ a ≤ 90 ∧ -180 ≤ b ∧ b ≤ 180)) :
    processRow hs st row = { st with bad_latlng := st.bad_latlng + 1 } := by
  unfold processRow
  rw [ha, hb]
  simp [hr]

theorem processRow_kept (hs : List String) (st : LoadState) (row : List Cell)
    (a b : ℚ)
    (ha : _to_float (grab hs row latAliases Cell.null) = Option.some a)
    (hb : _to_float (grab hs row lngAliases Cell.null) = Option.some b)
    (hr : -90 ≤ a ∧ a ≤ 90 ∧ -180 ≤ b ∧ b ≤ 180) :
    processRow hs st row =
      { st with resources :=
          st.resources ++ [mkResource hs row st.resources.length a b] } := by
  unfold processRow
  rw [ha, hb]
  simp [hr]

/-- C1: during ingestion, a row whose latitude or longitude is absent
after numeric conversion is excluded and only the skipped-no-coordinates
counter increments by one; a row whose coordinates are both present but
out of the [-90,90]x[-180,180] box is excluded and only the bad-lat/lng
counter increments by one; a row passing both checks is kept. -/
theorem C1_coordinate_validation (hs : List String) (st : LoadState) (row : List Cell) :
    ((_to_float (grab hs row latAliases Cell.null) = Option.none ∨
      _to_float (grab hs row lngAliases Cell.null) = Option.none) →
      processRow hs st row = { st with skipped_no_coords := st.skipped_no_coords + 1 }) ∧
    (∀ a b : ℚ, _to_float (grab hs row latAliases Cell.null) = Option.some a →
      _to_float (grab hs row lngAliases Cell.null) = Option.some b →
      ¬(-90 ≤ a ∧ a ≤ 90 ∧ -180 ≤ b ∧ b ≤ 180) →
      processRow hs st row = { st with bad_latlng := st.bad_latlng + 1 }) ∧
    (∀ a b : ℚ, _to_float (grab hs row latAliases Cell.null) = Option.some a →
      _to_float (grab hs row lngAliases Cell.null) = Option.some b →
      (-90 ≤ a ∧ a ≤ 90 ∧ -180 ≤ b ∧ b ≤ 180) →
      processRow hs st row =
        { st with resources :=
            st.resources ++ [mkResource hs row st.resources.length a b] }) := by
  refine ⟨fun h => processRow_skip hs st row h,
    fun a b ha hb hr => processRow_bad hs st row a b ha hb hr,
    fun a b ha hb hr => processRow_kept hs st row a b ha hb hr⟩

/-- Witness for C1 at a concrete row with no coordinate cells, a row with
an out-of-range latitude, and a kept row. -/
theorem C1_coordinate_validation_witness :
    processRow ["Latitude", "Longitude"] initState [Cell.null, Cell.null] =
      { initState with skipped_no_coords := 1 } ∧
    processRow ["Latitude", "Longitude"] initState [Cell.num 95, Cell.num 0] =
      { initState with bad_latlng := 1 } ∧
    processRow ["Latitude", "Longitude"] initState [Cell.num 39, Cell.num (-76)] =
      { initState with resources :=
          [mkResource ["Latitude", "Longitude"] [Cell.num 39, Cell.num (-76)] 0 39 (-76)] } :=
  ⟨(C1_coordinate_validation _ _ _).1 (Or.inl (by decide)),
   (C1_coordinate_validation _ _ _).2.1 95 0 (by decide) (by decide) (by decide),
   (C1_coordinate_validation _ _ _).2.2 39 (-76) (by decide) (by decide) (by decide)⟩

/- Helper: the if-chain equals first-match over the priority table. -/

theorem classify_eq_priority (c : Cell) :
    classify_category c = classifyByPriority c := by
  unfold classify_category classifyByPriority categoryTable
  cases h0 : cellIsna c
  case true => simp
  case false =>
  simp only [Bool.false_eq_true, if_false]
  cases h1 : hasAnyKeyword (pyNorm c) veteranKws
  case true => rw [List.find?_cons_of_pos _ (by simpa using h1)]; simp [h1]
  case false =>
  rw [List.find?_cons_of_neg _ (by simpa using h1)]
  simp only [h1, Bool.false_eq_true, if_false]
  cases h2 : hasAnyKeyword (pyNorm c) safetyKws
  case true => rw [List.find?_cons_of_pos _ (by simpa using h2)]; simp [h2]
  case false =>
  rw [List.find?_cons_of_neg _ (by simpa using h2)]
  simp only [h2, Bool.false_eq_true, if_false]
  cases h3 : hasAnyKeyword (pyNorm c) behavioralKws
  case true => rw [List.find?_cons_of_pos _ (by simpa using h3)]; simp [h3]
  case false =>
  rw [List.find?_cons_of_neg _ (by simpa using h3)]
  simp only [h3, Bool.false_eq_true, if_false]
  cases h4 : hasAnyKeyword (pyNorm c) physicalKws
  case true => rw [List.find?_cons_of_pos _ (by simpa using h4)]; simp [h4]
  case false =>
  rw [List.find?_cons_of_neg _ (by simpa using h4)]
  simp only [h4, Bool.false_eq_true, if_false]
  cases h5 : hasAnyKeyword (pyNorm c) housingKws
  case true => rw [List.find?_cons_of_pos _ (by simpa using h5)]; simp [h5]
  case false =>
  rw [List.find?_cons_of_neg _ (by simpa using h5)]
  simp only [h5, Bool.false_eq_true, if_false]
  cases h6 : hasAnyKeyword (pyNorm c) foodKws
  case true => rw [List.find?_cons_of_pos _ (by simpa using h6)]; simp [h6]
  case false =>
  rw [List.find?_cons_of_neg _ (by simpa using h6)]
  simp only [h6, Bool.false_eq_true, if_false]
  cases h7 : hasAnyKeyword (pyNorm c) financialKws
  case true => rw [List.find?_cons_of_pos _ (by simpa using h7)]; simp [h7]
  case false =>
  rw [List.find?_cons_of_neg _ (by simpa using h7)]
  simp only [h7, Bool.false_eq_true, if_false]
  cases h8 : hasAnyKeyword (pyNorm c) employmentKws
  case true => rw [List.find?_cons_of_pos _ (by simpa using h8)]; simp [h8]
  case false =>
  rw [List.find?_cons_of_neg _ (by simpa using h8)]
  simp only [h8, Bool.false_eq_true, if_false]
  cases h9 : hasAnyKeyword (pyNorm c) youthKws
  case true => rw [List.find?_cons_of_pos _ (by simpa using h9)]; simp [h9]
  case false =>
  rw [List.find?_cons_of_neg _ (by simpa using h9)]
  simp [h9]

/-- C2: the classifier returns the first category of the fixed priority
list (Veteran Services, Safety & Anti-Violence, Behavioral Health,
Physical Health, Housing, Food, Financial, Employment, Youth/Family, then
the fallback) one of whose keywords occurs as a substring of the
lower-cased trimmed input; in particular an input containing both a
Veteran keyword and a Food keyword classifies as "Veteran Services". -/
theorem C2_classifier_priority_order :
    (∀ c : Cell, classify_category c = classifyByPriority c) ∧
    (∀ t : String, hasAnyKeyword (pyNorm (Cell.str t)) veteranKws = true →
      hasAnyKeyword (pyNorm (Cell.str t)) foodKws = true →
      classify_category (Cell.str t) = "Veteran Services") := by
  refine ⟨classify_eq_priority, fun t h1 _ => ?_⟩
  simp [classify_category, cellIsna, h1]

/-- Witness for C2: "Veteran food pantry" contains the Veteran keyword
"veteran" and the Food keywords "food"/"pantry" and classifies as
"Veteran Services". -/
theorem C2_classifier_priority_order_witness :
    classify_category (Cell.str "Veteran food pantry") = "Veteran Services" :=
  C2_classifier_priority_order.2 "Veteran food pantry" (by decide) (by decide)

/- ----------------------------------------------------------------- -/
/- C3: missing-column behavior of the preparation pipeline -/

/-- A dataframe with a category column but no Address column. -/
def dfNoAddress : DF := [(CATEGORY_COL, [Cell.str "food pantry"])]

/-- C3 counterexample: on a dataframe missing the Address column the
geocoding step is not skipped — `geocode_addresses` raises and the whole
preparation pipeline aborts with its error instead of continuing with
the remaining steps. -/
theorem C3_counterexample :
    mainPipeline (fun _ => Option.none) [] dfNoAddress =
      Except.error "Could not find the column 'Address' in the Excel file." ∧
    geocode_addresses (fun _ => Option.none) [] dfNoAddress =
      Except.error "Could not find the column 'Address' in the Excel file." := by
  constructor <;> rfl

/-- C3 amended: a missing category column is non-fatal (recategorization
is skipped with a warning and the dataframe passes through unchanged),
but a missing Address column makes `geocode_addresses` raise, and the
pipeline aborts with that error rather than continuing. -/
theorem C3_missing_column_behavior :
    (∀ df : DF, getCol df CATEGORY_COL = Option.none →
      recategorize_categories df = df) ∧
    (∀ (live : List Char → Option (ℚ × ℚ)) (cache0 : GeoCache) (df : DF),
      getCol df ADDRESS_COL = Option.none →
      geocode_addresses live cache0 df =
        Except.error "Could not find the column 'Address' in the Excel file.") ∧
    (∀ (live : List Char → Option (ℚ × ℚ)) (cache0 : GeoCache) (df : DF),
      getCol df ADDRESS_COL = Option.none →
      mainPipeline live cache0 df =
        Except.error "Could not find the column 'Address' in the Excel file.") := by
  refine ⟨fun df h => ?_, fun live cache0 df h => ?_, fun live cache0 df h => ?_⟩
  · unfold recategorize_categories
    rw [h]
  · unfold geocode_addresses
    rw [h]
    rfl
  · unfold mainPipeline RUN_GEOCODING
    simp only [if_true]
    unfold geocode_addresses
    rw [h]
    rfl

/-- Witness for C3's amended statement at concrete dataframes. -/
theorem C3_missing_column_behavior_witness :
    recategorize_categories [(ADDRESS_COL, [Cell.str "123 Main St"])] =
      [(ADDRESS_COL, [Cell.str "123 Main St"])] ∧
    geocode_addresses (fun _ => Option.none) [] [(CATEGORY_COL, [Cell.null])] =
      Except.error "Could not find the column 'Address' in the Excel file." :=
  ⟨C3_missing_column_behavior.1 _ (by decide),
   C3_missing_column_behavior.2.1 (fun _ => Option.none) [] _ (by decide)⟩

/- ----------------------------------------------------------------- -/
/- C4: identifier assignment -/

theorem keepsRow_elim (hs : List String) (row : List Cell)
    (hk : keepsRow hs row = true) :
    ∃ a b : ℚ, _to_float (grab hs row latAliases Cell.null) = Option.some a ∧
      _to_float (grab hs row lngAliases Cell.null) = Option.some b ∧
      (-90 ≤ a ∧ a ≤ 90 ∧ -180 ≤ b ∧ b ≤ 180) := by
  unfold keepsRow at hk
  cases ha : _to_float (grab hs row latAliases Cell.null) with
  | none => rw [ha] at hk; cases hk
  | some a =>
    cases hb : _to_float (grab hs row lngAliases Cell.null) with
    | none => rw [ha, hb] at hk; cases hk
    | some b =>
      rw [ha, hb] at hk
      exact ⟨a, b, rfl, rfl, of_decide_eq_true hk⟩

theorem mkResource_id_blank (hs : List String) (row : List Cell) (n : Nat)
    (a b : ℚ) (hb : cellBlank (grab hs row idAliases Cell.null) = true) :
    (mkResource hs row n a b).id = Cell.num ((n + 1 : ℕ) : ℚ) := by
  simp [mkResource, hb]

theorem mkResource_id_given (hs : List String) (row : List Cell) (n : Nat)
    (a b : ℚ) (hb : cellBlank (grab hs row idAliases Cell.null) = false) :
    (mkResource hs row n a b).id = grab hs row idAliases Cell.null := by
  simp [mkResource, hb]

theorem loadRows_ids_aux (hs : List String) (rows : List (List Cell)) :
    ∀ st : LoadState,
      (∀ row ∈ rows, keepsRow hs row = true ∧
        cellBlank (grab hs row idAliases Cell.null) = true) →
      (rows.foldl (processRow hs) st).resources.map Resource.id =
        st.resources.map Resource.id ++
          (List.range' (st.resources.length + 1) rows.length).map
            (fun i => Cell.num (i : ℚ)) := by
  induction rows with
  | nil => intro st _; simp
  | cons row rest ih =>
    intro st h
    have hk := (h row (by simp)).1
    have hblank := (h row (by simp)).2
    obtain ⟨a, b, ha, hb, hr⟩ := keepsRow_elim hs row hk
    rw [List.foldl_cons, processRow_kept hs st row a b ha hb hr,
      ih _ (fun r hr' => h r (by simp [hr']))]
    simp only [List.length_cons, List.range'_succ _ _ 1]
    simp [mkResource_id_blank hs row st.resources.length a b hblank,
      Nat.add_comm st.resources.length 1, Nat.add_assoc]

/-- C4: a kept row with a non-blank source identifier keeps it verbatim;
a kept row with a blank identifier gets `len(resources) + 1`, so for a
sheet of validation-passing rows with no source identifiers the output
identifiers are exactly 1..N in row order. -/
theorem C4_identifier_assignment :
    (∀ (hs : List String) (st : LoadState) (row : List Cell) (a b : ℚ),
      _to_float (grab hs row latAliases Cell.null) = Option.some a →
      _to_float (grab hs row lngAliases Cell.null) = Option.some b →
      (-90 ≤ a ∧ a ≤ 90 ∧ -180 ≤ b ∧ b ≤ 180) →
      cellBlank (grab hs row idAliases Cell.null) = false →
      (processRow hs st row).resources.map Resource.id =
        st.resources.map Resource.id ++ [grab hs row idAliases Cell.null]) ∧
    (∀ (hs : List String) (rows : List (List Cell)),
      (∀ row ∈ rows, keepsRow hs row = true ∧
        cellBlank (grab hs row idAliases Cell.null) = true) →
      (loadRows hs rows).resources.map Resource.id =
        (List.range' 1 rows.length).map (fun i => Cell.num (i : ℚ))) := by
  constructor
  · intro hs st row a b ha hb hr hid
    rw [processRow_kept hs st row a b ha hb hr]
    simp [mkResource_id_given hs row st.resources.length a b hid]
  · intro hs rows h
    have := loadRows_ids_aux hs rows initState h
    simpa [loadRows, initState] using this

/-- Witness for C4: a kept row with source id "X7" keeps it; two kept
rows with no ID column get identifiers 1, 2. -/
theorem C4_identifier_assignment_witness :
    (processRow ["ID", "Latitude", "Longitude"] initState
      [Cell.str "X7", Cell.num 10, Cell.num 20]).resources.map Resource.id =
      [Cell.str "X7"] ∧
    (loadRows ["Latitude", "Longitude"]
      [[Cell.num 1, Cell.num 2], [Cell.num 3, Cell.num 4]]).resources.map Resource.id =
      [Cell.num 1, Cell.num 2] :=
  ⟨(C4_identifier_assignment.1 ["ID", "Latitude", "Longitude"] initState
      [Cell.str "X7", Cell.num 10, Cell.num 20] 10 20
      (by decide) (by decide) (by decide) (by decide)).trans (by decide),
   (C4_identifier_assignment.2 ["Latitude", "Longitude"]
      [[Cell.num 1, Cell.num 2], [Cell.num 3, Cell.num 4]]
      (by decide)).trans (by decide)⟩

/- ----------------------------------------------------------------- -/
/- C5: geocode lookup order and in-batch cache reuse -/

theorem cacheFind_map_repl (c : GeoCache) (k : List Char) (v : ℚ × ℚ) :
    cacheFind (c.map (fun p => if p.1 == k then (p.1, v.1, v.2) else p)) k =
      if (c.find? (fun p => p.1 == k)).isSome then Option.some v else Option.none := by
  induction c with
  | nil => simp [cacheFind]
  | cons p rest ih =>
    by_cases hp : p.1 == k
    · simp [cacheFind, List.find?, hp]
    · simp only [List.map_cons, if_neg hp]
      unfold cacheFind
      rw [List.find?_cons_of_neg _ (by simpa using hp),
        List.find?_cons_of_neg _ (by simpa using hp)]
      exact ih

theorem cacheFind_append_new (c : GeoCache) (k : List Char) (v : ℚ × ℚ)
    (h : c.find? (fun p => p.1 == k) = Option.none) :
    cacheFind (c ++ [(k, v.1, v.2)]) k = Option.some v := by
  induction c with
  | nil => simp [cacheFind, List.find?]
  | cons p rest ih =>
    have hp : (p.1 == k) = false := by
      cases hp : (p.1 == k)
      · rfl
      · simp [List.find?, hp] at h
    rw [List.find?_cons_of_neg _ (by simp [hp])] at h
    unfold cacheFind
    rw [List.cons_append, List.find?_cons_of_neg _ (by simp [hp])]
    exact ih h

/-- After a dict assignment `cache_map[addr] = v`, looking `addr` up in
the cache succeeds with `v`. -/
theorem cacheFind_insert (c : GeoCache) (k : List Char) (v : ℚ × ℚ) :
    cacheFind (cacheInsert c k v) k = Option.some v := by
  unfold cacheInsert
  cases h : c.find? (fun p => p.1 == k) with
  | none => simp only [h, Option.isSome_none, Bool.false_eq_true, if_false]
            exact cacheFind_append_new c k v h
  | some p => simp only [h, Option.isSome_some, if_true]
              rw [cacheFind_map_repl, h]
              rfl

/-- C5: one geocoding-pass iteration follows the lookup order: empty
normalized address → no lookup, row left unresolved; both coordinates
already filled → skipped entirely; else cache consulted by normalized
address; else live lookup, whose success is written into the in-memory
cache immediately, so a later duplicate address in the same batch is a
cache hit (its row is filled with the cached result and the live-lookup
counter does not increment again). -/
theorem C5_geocode_lookup_order :
    (∀ (live : List Char → Option (ℚ × ℚ)) (st : GeoState) (r : GRow),
      (norm_addr r.address).isEmpty = true → geoRow live st r = (r, st)) ∧
    (∀ (live : List Char → Option (ℚ × ℚ)) (st : GeoState) (r : GRow),
      (norm_addr r.address).isEmpty = false →
      cellNotna r.lat = true → cellNotna r.lng = true →
      geoRow live st r = (r, st)) ∧
    (∀ (live : List Char → Option (ℚ × ℚ)) (st : GeoState) (r : GRow) (la ln : ℚ),
      (norm_addr r.address).isEmpty = false →
      (cellNotna r.lat && cellNotna r.lng) = false →
      cacheFind st.cache (norm_addr r.address) = Option.some (la, ln) →
      geoRow live st r =
        ({ r with lat := Cell.num la, lng := Cell.num ln }, st)) ∧
    (∀ (live : List Char → Option (ℚ × ℚ)) (st : GeoState) (r : GRow) (la ln : ℚ),
      (norm_addr r.address).isEmpty = false →
      (cellNotna r.lat && cellNotna r.lng) = false →
      cacheFind st.cache (norm_addr r.address) = Option.none →
      live (norm_addr r.address) = Option.some (la, ln) →
      geoRow live st r =
        ({ r with lat := Cell.num la, lng := Cell.num ln },
         { cache := cacheInsert st.cache (norm_addr r.address) (la, ln),
           updated := st.updated + 1 }) ∧
      cacheFind (geoRow live st r).2.cache (norm_addr r.address) =
        Option.some (la, ln)) ∧
    (∀ (live : List Char → Option (ℚ × ℚ)) (st : GeoState) (r r2 : GRow) (la ln : ℚ),
      (norm_addr r.address).isEmpty = false →
      (cellNotna r.lat && cellNotna r.lng) = false →
      cacheFind st.cache (norm_addr r.address) = Option.none →
      live (norm_addr r.address) = Option.some (la, ln) →
      norm_addr r2.address = norm_addr r.address →
      (cellNotna r2.lat && cellNotna r2.lng) = false →
      geoRow live (geoRow live st r).2 r2 =
        ({ r2 with lat := Cell.num la, lng := Cell.num ln },
         (geoRow live st r).2)) := by
  have hskip : ∀ (live : List Char → Option (ℚ × ℚ)) (st : GeoState) (r : GRow),
      (norm_addr r.address).isEmpty = true → geoRow live st r = (r, st) := by
    intro live st r h
    simp [geoRow, h]
  have hfilled : ∀ (live : List Char → Option (ℚ × ℚ)) (st : GeoState) (r : GRow),
      (norm_addr r.address).isEmpty = false →
      cellNotna r.lat = true → cellNotna r.lng = true →
      geoRow live st r = (r, st) := by
    intro live st r h h1 h2
    simp [geoRow, h, h1, h2]
  have hhit : ∀ (live : List Char → Option (ℚ × ℚ)) (st : GeoState) (r : GRow) (la ln : ℚ),
      (norm_addr r.address).isEmpty = false →
      (cellNotna r.lat && cellNotna r.lng) = false →
      cacheFind st.cache (norm_addr r.address) = Option.some (la, ln) →
      geoRow live st r = ({ r with lat := Cell.num la, lng := Cell.num ln }, st) := by
    intro live st r la ln h h1 h2
    simp [geoRow, h, h1, h2]
  have hlive : ∀ (live : List Char → Option (ℚ × ℚ)) (st : GeoState) (r : GRow) (la ln : ℚ),
      (norm_addr r.address).isEmpty = false →
      (cellNotna r.lat && cellNotna r.lng) = false →
      cacheFind st.cache (norm_addr r.address) = Option.none →
      live (norm_addr r.address) = Option.some (la, ln) →
      geoRow live st r =
        ({ r with lat := Cell.num la, lng := Cell.num ln },
         { cache := cacheInsert st.cache (norm_addr r.address) (la, ln),
           updated := st.updated + 1 }) := by
    intro live st r la ln h h1 h2 h3
    simp [geoRow, h, h1, h2, h3]
  refine ⟨hskip, hfilled, hhit, fun live st r la ln h h1 h2 h3 => ?_,
    fun live st r r2 la ln h h1 h2 h3 h4 h5 => ?_⟩
  · refine ⟨hlive live st r la ln h h1 h2 h3, ?_⟩
    rw [hlive live st r la ln h h1 h2 h3]
    exact cacheFind_insert st.cache (norm_addr r.address) (la, ln)
  · rw [hlive live st r la ln h h1 h2 h3]
    refine hhit live _ r2 la ln ?_ h5 ?_
    · rw [h4]; exact h
    · rw [h4]; exact cacheFind_insert st.cache (norm_addr r.address) (la, ln)

/-- A concrete live-lookup oracle for the C5 witness. -/
def liveW : List Char → Option (ℚ × ℚ) := fun _ => Option.some ((39 : ℚ), (-76 : ℚ))

/-- Witness for C5: a live lookup for "123 Main St" fills the row,
increments the counter and caches the result; the cached entry is
immediately visible. -/
theorem C5_geocode_lookup_order_witness :
    geoRow liveW ⟨[], 0⟩ ⟨Cell.str "123 Main St", Cell.null, Cell.null⟩ =
      (⟨Cell.str "123 Main St", Cell.num 39, Cell.num (-76)⟩,
       ⟨[("123 Main St".data, 39, -76)], 1⟩) ∧
    cacheFind (geoRow liveW ⟨[], 0⟩
        ⟨Cell.str "123 Main St", Cell.null, Cell.null⟩).2.cache
      (norm_addr (Cell.str "123 Main St")) = Option.some (39, -76) :=
  ⟨((C5_geocode_lookup_order.2.2.2.1 liveW ⟨[], 0⟩
      ⟨Cell.str "123 Main St", Cell.null, Cell.null⟩ 39 (-76)
      (by decide) (by decide) (by decide) rfl).1).trans (by decide),
   (C5_geocode_lookup_order.2.2.2.1 liveW ⟨[], 0⟩
      ⟨Cell.str "123 Main St", Cell.null, Cell.null⟩ 39 (-76)
      (by decide) (by decide) (by decide) rfl).2⟩

/- ----------------------------------------------------------------- -/
/- C6: reliability sentinel -/

theorem mkResource_reliability (hs : List String) (row : List Cell) (n : Nat)
    (a b : ℚ) :
    (mkResource hs row n a b).reliability =
      (if stripStr (grab hs row reliabilityAliases (Cell.str "")) = "" ∨
          stripStr (grab hs row reliabilityAliases (Cell.str "")) = "nan" ∨
          stripStr (grab hs row reliabilityAliases (Cell.str "")) = "none"
       then "na" else stripStr (grab hs row reliabilityAliases (Cell.str ""))) := by
  simp [mkResource]

/-- C6 counterexample: a kept row whose reliability cell holds the
literal text "None" keeps "None" verbatim instead of the sentinel "na" —
the blank/"nan"/"none" test of the code is case-sensitive, while the
claim says "None", "NaN", "NONE" also become "na". -/
theorem C6_counterexample :
    (processRow ["Reliability Rate 1-10", "Latitude", "Longitude"] initState
      [Cell.str "None", Cell.num 39, Cell.num (-76)]).resources.map
        Resource.reliability = ["None"] ∧
    ("None" : String) ≠ "na" := by
  constructor
  · decide
  · decide

/-- C6 amended: the reliability field of a kept record equals the raw
trimmed string unless that string is blank or exactly the lower-case
text "nan" or "none" (the comparison is case-sensitive, so "None",
"NaN", "NONE" pass through verbatim), in which case it is the sentinel
"na". -/
theorem C6_reliability_sentinel (hs : List String) (st : LoadState)
    (row : List Cell) (a b : ℚ)
    (ha : _to_float (grab hs row latAliases Cell.null) = Option.some a)
    (hb : _to_float (grab hs row lngAliases Cell.null) = Option.some b)
    (hr : -90 ≤ a ∧ a ≤ 90 ∧ -180 ≤ b ∧ b ≤ 180) :
    ((stripStr (grab hs row reliabilityAliases (Cell.str "")) = "" ∨
      stripStr (grab hs row reliabilityAliases (Cell.str "")) = "nan" ∨
      stripStr (grab hs row reliabilityAliases (Cell.str "")) = "none") →
      (processRow hs st row).resources.map Resource.reliability =
        st.resources.map Resource.reliability ++ ["na"]) ∧
    (¬(stripStr (grab hs row reliabilityAliases (Cell.str "")) = "" ∨
       stripStr (grab hs row reliabilityAliases (Cell.str "")) = "nan" ∨
       stripStr (grab hs row reliabilityAliases (Cell.str "")) = "none") →
      (processRow hs st row).resources.map Resource.reliability =
        st.resources.map Resource.reliability ++
          [stripStr (grab hs row reliabilityAliases (Cell.str ""))]) := by
  constructor
  · intro h
    rw [processRow_kept hs st row a b ha hb hr]
    simp [mkResource_reliability, h]
  · intro h
    rw [processRow_kept hs st row a b ha hb hr]
    simp [mkResource_reliability, h]

/-- Witness for C6's amended statement: a trimmed "nan" cell becomes
"na"; a "NaN" cell passes through verbatim. -/
theorem C6_reliability_sentinel_witness :
    (processRow ["Reliability Rate 1-10", "Latitude", "Longitude"] initState
      [Cell.str " nan ", Cell.num 1, Cell.num 2]).resources.map
        Resource.reliability = ["na"] ∧
    (processRow ["Reliability Rate 1-10", "Latitude", "Longitude"] initState
      [Cell.str "NaN", Cell.num 1, Cell.num 2]).resources.map
        Resource.reliability = ["NaN"] :=
  ⟨((C6_reliability_sentinel ["Reliability Rate 1-10", "Latitude", "Longitude"]
      initState [Cell.str " nan ", Cell.num 1, Cell.num 2] 1 2
      (by decide) (by decide) (by decide)).1 (by decide)).trans (by decide),
   ((C6_reliability_sentinel ["Reliability Rate 1-10", "Latitude", "Longitude"]
      initState [Cell.str "NaN", Cell.num 1, Cell.num 2] 1 2
      (by decide) (by decide) (by decide)).2 (by decide)).trans (by decide)⟩

/- ----------------------------------------------------------------- -/
/- C7: header resolution -/

/-- C7 counterexample: headers ["Latitude", "Lat"], row [None, 42].  The
first alias "Latitude" matches the header at index 0, whose cell is the
empty (null) cell — yet `grab` returns 42 from the later alias "Lat"
instead of using the first matching alias's cell. -/
theorem C7_counterexample :
    hmGet ["Latitude", "Lat"] (normName "Latitude") = Option.some 0 ∧
    ([Cell.null, Cell.num 42].get? 0) = Option.some Cell.null ∧
    grab ["Latitude", "Lat"] [Cell.null, Cell.num 42] ["Latitude", "Lat"]
      Cell.null = Cell.num 42 ∧
    Cell.num 42 ≠ Cell.null := by
  refine ⟨by decide, by decide, by decide, by decide⟩

/-- C7 amended: aliases are matched case-insensitively and
whitespace-collapsed against the headers, and the first alias that
matches a header *and whose cell is non-null* wins; an alias whose
matched cell is null (or whose matched column is beyond the row) is
passed over in favour of later aliases; when no alias matches any
header the explicit default is returned. -/
theorem C7_header_resolution :
    (∀ (hs : List String) (row : List Cell) (n : String) (rest : List String)
       (dflt : Cell) (idx : Nat) (v : Cell),
      hmGet hs (normName n) = Option.some idx →
      row.get? idx = Option.some v → v ≠ Cell.null →
      grab hs row (n :: rest) dflt = v) ∧
    (∀ (hs : List String) (row : List Cell) (n : String) (rest : List String)
       (dflt : Cell) (idx : Nat),
      hmGet hs (normName n) = Option.some idx →
      row.get? idx = Option.some Cell.null →
      grab hs row (n :: rest) dflt = grab hs row rest dflt) ∧
    (∀ (hs : List String) (row : List Cell) (names : List String) (dflt : Cell),
      (∀ n ∈ names, hmGet hs (normName n) = Option.none) →
      grab hs row names dflt = dflt) := by
  refine ⟨?_, ?_, ?_⟩
  · intro hs row n rest dflt idx v h1 h2 h3
    cases v with
    | null => exact absurd rfl h3
    | str s => simp only [grab, h1, h2]
    | num q => simp only [grab, h1, h2]
    | nan => simp only [grab, h1, h2]
  · intro hs row n rest dflt idx h1 h2
    conv_lhs => rw [grab]
    rw [h1]
    simp only [h2]
  · intro hs row names dflt h
    induction names with
    | nil => rfl
    | cons n rest ih =>
      unfold grab
      rw [h n (by simp)]
      exact ih (fun m hm => h m (by simp [hm]))

/-- Witness for C7's amended statement: the first non-null alias hit
wins; null cells fall through; no match gives the default. -/
theorem C7_header_resolution_witness :
    grab ["Lat"] [Cell.num 7] ["Lat", "Latitude"] Cell.null = Cell.num 7 ∧
    grab ["Latitude", "Lat"] [Cell.null, Cell.num 42] ["Latitude", "Lat"]
      Cell.null = grab ["Latitude", "Lat"] [Cell.null, Cell.num 42] ["Lat"]
      Cell.null ∧
    grab ["Name"] [Cell.str "x"] ["Latitude", "Lat"] Cell.null = Cell.null :=
  ⟨C7_header_resolution.1 ["Lat"] [Cell.num 7] "Lat" ["Latitude"] Cell.null 0
      (Cell.num 7) (by decide) (by decide) (by decide),
   C7_header_resolution.2.1 ["Latitude", "Lat"] [Cell.null, Cell.num 42]
      "Latitude" ["Lat"] Cell.null 0 (by decide) (by decide),
   C7_header_resolution.2.2 ["Name"] [Cell.str "x"] ["Latitude", "Lat"]
      Cell.null (by decide)⟩

/- ----------------------------------------------------------------- -/
/- C8: boolean-flag parsing -/

/-- C8: the boolean-flag parser is total (it returns one of three states
and never raises): after trimming and lower-casing, the tokens "yes",
"y", "true", "1" give true, the tokens "no", "n", "false", "0" give
false, and any other string — as well as the null cell — gives the
unknown state. -/
theorem C8_bool_flag_tristate :
    (∀ s : String,
      tokenIn (pyLower (pyStrip s.data)) ["yes", "y", "true", "1"] = true →
      to_bool_flag (Cell.str s) = Option.some true) ∧
    (∀ s : String,
      tokenIn (pyLower (pyStrip s.data)) ["no", "n", "false", "0"] = true →
      to_bool_flag (Cell.str s) = Option.some false) ∧
    (∀ s : String,
      tokenIn (pyLower (pyStrip s.data)) ["yes", "y", "true", "1"] = false →
      tokenIn (pyLower (pyStrip s.data)) ["no", "n", "false", "0"] = false →
      to_bool_flag (Cell.str s) = Option.none) ∧
    to_bool_flag Cell.null = Option.none := by
  refine ⟨fun s h => ?_, fun s h => ?_, fun s h1 h2 => ?_, rfl⟩
  · simp [to_bool_flag, pyStr, h]
  · have h' : ∃ t ∈ ["no", "n", "false", "0"],
        pyLower (pyStrip s.data) = t.data := by
      simpa [tokenIn, List.any_eq_true] using h
    obtain ⟨t, ht, heq⟩ := h'
    fin_cases ht <;> simp only [to_bool_flag, pyStr, heq] <;> decide
  · simp [to_bool_flag, pyStr, h1, h2]

/-- Witness for C8 at the claim's example inputs. -/
theorem C8_bool_flag_tristate_witness :
    to_bool_flag (Cell.str " TRUE ") = Option.some true ∧
    to_bool_flag (Cell.str "No") = Option.some false ∧
    to_bool_flag (Cell.str "maybe") = Option.none ∧
    to_bool_flag (Cell.str "") = Option.none ∧
    to_bool_flag Cell.null = Option.none :=
  ⟨C8_bool_flag_tristate.1 " TRUE " (by decide),
   C8_bool_flag_tristate.2.1 "No" (by decide),
   C8_bool_flag_tristate.2.2.1 "maybe" (by decide) (by decide),
   C8_bool_flag_tristate.2.2.1 "" (by decide) (by decide),
   C8_bool_flag_tristate.2.2.2⟩

/- ----------------------------------------------------------------- -/
/- C9: idempotent backup of the category column -/

theorem getCol_map_repl_same (df : DF) (n : String) (col : List Cell) :
    getCol (df.map (fun p => if p.1 == n then (p.1, col) else p)) n =
      if (df.find? (fun p => p.1 == n)).isSome then Option.some col
      else Option.none := by
  induction df with
  | nil => rfl
  | cons p rest ih =>
    by_cases hp : (p.1 == n) = true
    · simp only [List.map_cons, if_pos hp]
      unfold getCol
      rw [List.find?_cons_of_pos _ (by simp [hp]),
        List.find?_cons_of_pos _ (by simp [hp])]
      simp
    · simp only [List.map_cons, if_neg hp]
      unfold getCol
      rw [List.find?_cons_of_neg _ (by simp [hp]),
        List.find?_cons_of_neg _ (by simp [hp])]
      exact ih

theorem getCol_append_one_same (df : DF) (n : String) (col : List Cell)
    (h : df.find? (fun p => p.1 == n) = Option.none) :
    getCol (df ++ [(n, col)]) n = Option.some col := by
  induction df with
  | nil => unfold getCol; simp [List.find?]
  | cons p rest ih =>
    have hp : (p.1 == n) = false := by
      cases hp : (p.1 == n)
      · rfl
      · simp [List.find?, hp] at h
    rw [List.find?_cons_of_neg _ (by simp [hp])] at h
    unfold getCol
    rw [List.cons_append, List.find?_cons_of_neg _ (by simp [hp])]
    exact ih h

/-- Writing `df[n] = col` makes a later read of column `n` return `col`. -/
theorem getCol_setCol_same (df : DF) (n : String) (col : List Cell) :
    getCol (setCol df n col) n = Option.some col := by
  unfold setCol
  cases hf : df.find? (fun p => p.1 == n) with
  | none =>
    simp only [hf, Option.isSome_none, Bool.false_eq_true, if_false]
    exact getCol_append_one_same df n col hf
  | some p =>
    simp only [hf, Option.isSome_some, if_true]
    rw [getCol_map_repl_same, hf]
    rfl

theorem getCol_map_repl_ne (df : DF) (n n' : String) (col : List Cell)
    (h : n ≠ n') :
    getCol (df.map (fun p => if p.1 == n then (p.1, col) else p)) n' =
      getCol df n' := by
  induction df with
  | nil => rfl
  | cons p rest ih =>
    by_cases hq : (p.1 == n) = true
    · have hpn' : (p.1 == n') = false := by
        rw [show p.1 = n from by simpa using hq]
        exact beq_eq_false_iff_ne.mpr h
      simp only [List.map_cons, if_pos hq]
      unfold getCol
      rw [List.find?_cons_of_neg _ (by simp [hpn']),
        List.find?_cons_of_neg _ (by simp [hpn'])]
      exact ih
    · by_cases hp : (p.1 == n') = true
      · simp only [List.map_cons, if_neg hq]
        unfold getCol
        rw [List.find?_cons_of_pos _ (by simp [hp]),
          List.find?_cons_of_pos _ (by simp [hp])]
      · simp only [List.map_cons, if_neg hq]
        unfold getCol
        rw [List.find?_cons_of_neg _ (by simp [hp]),
          List.find?_cons_of_neg _ (by simp [hp])]
        exact ih

theorem getCol_append_one_ne (df : DF) (n n' : String) (col : List Cell)
    (h : n ≠ n') :
    getCol (df ++ [(n, col)]) n' = getCol df n' := by
  induction df with
  | nil =>
    unfold getCol
    simp [List.find?, beq_eq_false_iff_ne.mpr h]
  | cons p rest ih =>
    by_cases hp : (p.1 == n') = true
    · unfold getCol
      rw [List.cons_append, List.find?_cons_of_pos _ (by simp [hp]),
        List.find?_cons_of_pos _ (by simp [hp])]
    · unfold getCol
      rw [List.cons_append, List.find?_cons_of_neg _ (by simp [hp]),
        List.find?_cons_of_neg _ (by simp [hp])]
      exact ih

/-- Writing `df[n] = col` leaves every other column unchanged. -/
theorem getCol_setCol_ne (df : DF) (n n' : String) (col : List Cell)
    (h : n ≠ n') :
    getCol (setCol df n col) n' = getCol df n' := by
  unfold setCol
  by_cases hf : (df.find? (fun p => p.1 == n)).isSome = true
  · rw [if_pos hf]
    exact getCol_map_repl_ne df n n' col h
  · rw [if_neg hf]
    exact getCol_append_one_ne df n n' col h

/-- Recategorizing a dataframe that already has both the category column
and the backup column leaves the backup column unchanged. -/
theorem recat_backup_present (d : DF) (cv bv : List Cell)
    (hc : getCol d CATEGORY_COL = Option.some cv)
    (hb : getCol d backupCol = Option.some bv) :
    getCol (recategorize_categories d) backupCol = Option.some bv := by
  have hne : CATEGORY_COL ≠ backupCol := by decide
  have hd : recategorize_categories d =
      setCol d CATEGORY_COL (cv.map (fun c => Cell.str (classify_category c))) := by
    simp [recategorize_categories, hc, hb]
  rw [hd, getCol_setCol_ne _ _ _ _ hne]
  exact hb

/-- C9: the "(Original)" backup column is created only when absent, so a
second recategorization run leaves the backup column exactly as the
first run left it. -/
theorem C9_recategorize_backup_idempotent (df : DF) :
    getCol (recategorize_categories (recategorize_categories df)) backupCol =
      getCol (recategorize_categories df) backupCol := by
  have hne : CATEGORY_COL ≠ backupCol := by decide
  cases h : getCol df CATEGORY_COL with
  | none =>
    have h1 : recategorize_categories df = df := by
      simp [recategorize_categories, h]
    rw [h1, h1]
  | some catVals =>
    have hdf' : recategorize_categories df =
        setCol (if (getCol df backupCol).isSome then df
                else setCol df backupCol catVals) CATEGORY_COL
          (catVals.map (fun c => Cell.str (classify_category c))) := by
      simp [recategorize_categories, h]
    have hc' : getCol (recategorize_categories df) CATEGORY_COL =
        Option.some (catVals.map (fun c => Cell.str (classify_category c))) := by
      rw [hdf']
      exact getCol_setCol_same _ _ _
    have hb' : ∃ bv, getCol (recategorize_categories df) backupCol =
        Option.some bv := by
      rw [hdf', getCol_setCol_ne _ _ _ _ hne]
      by_cases hb : (getCol df backupCol).isSome = true
      · rw [if_pos hb]
        exact Option.isSome_iff_exists.mp hb
      · rw [if_neg hb]
        exact ⟨catVals, getCol_setCol_same df backupCol catVals⟩
    obtain ⟨bv, hbv⟩ := hb'
    rw [recat_backup_present (recategorize_categories df) _ bv hc' hbv, hbv]

/- ----------------------------------------------------------------- -/
/- C10: the "dv" keyword pre-empts "advocacy" -/

theorem matchesAt_iff (p : List Char) : ∀ s : List Char,
    matchesAt p s = true ↔ ∃ r, s = p ++ r := by
  induction p with
  | nil => intro s; simp [matchesAt]
  | cons a as ih =>
    intro s
    cases s with
    | nil => simp [matchesAt]
    | cons b bs =>
      simp only [matchesAt, Bool.and_eq_true, beq_iff_eq, ih, List.cons_append]
      constructor
      · rintro ⟨hab, r, hr⟩
        exact ⟨r, by rw [hab, hr]⟩
      · rintro ⟨r, hr⟩
        injection hr with h1 h2
        exact ⟨h1.symm, r, h2⟩

theorem hasSub_iff (p : List Char) : ∀ s : List Char,
    hasSub p s = true ↔ ∃ l r, s = l ++ p ++ r := by
  intro s
  induction s with
  | nil =>
    simp only [hasSub, matchesAt_iff]
    constructor
    · rintro ⟨r, hr⟩
      exact ⟨[], r, by simpa using hr⟩
    · rintro ⟨l, r, hr⟩
      have h2 := List.append_eq_nil.mp hr.symm
      have h3 := List.append_eq_nil.mp h2.1
      exact ⟨[], by rw [h3.2]; rfl⟩
  | cons c cs ih =>
    simp only [hasSub, Bool.or_eq_true, matchesAt_iff, ih]
    constructor
    · rintro (⟨r, hr⟩ | ⟨l, r, hr⟩)
      · exact ⟨[], r, by simpa using hr⟩
      · exact ⟨c :: l, r, by simp [hr]⟩
    · rintro ⟨l, r, hr⟩
      cases l with
      | nil => exact Or.inl ⟨r, by simpa using hr⟩
      | cons x xs =>
        injection hr with h1 h2
        exact Or.inr ⟨xs, r, h2⟩

/-- Substring containment is transitive. -/
theorem hasSub_trans {p q s : List Char} (hpq : hasSub p q = true)
    (hqs : hasSub q s = true) : hasSub p s = true := by
  rw [hasSub_iff] at hpq hqs ⊢
  obtain ⟨l1, r1, h1⟩ := hpq
  obtain ⟨l2, r2, h2⟩ := hqs
  exact ⟨l2 ++ l1, r1 ++ r2, by rw [h2, h1]; simp [List.append_assoc]⟩

/-- C10: any input whose lower-cased trimmed form contains "dv" and no
Veteran keyword classifies as "Safety & Anti-Violence"; since "advocacy"
contains "dv", an input containing "advocacy" can never classify as the
Youth/Family category — its own keyword "advocacy" can never by itself
select it. -/
theorem C10_dv_preempts_advocacy :
    (∀ s : String, hasSub "dv".data (pyNorm (Cell.str s)) = true →
      hasAnyKeyword (pyNorm (Cell.str s)) veteranKws = false →
      classify_category (Cell.str s) = "Safety & Anti-Violence") ∧
    (∀ s : String, hasSub "advocacy".data (pyNorm (Cell.str s)) = true →
      classify_category (Cell.str s) ≠
        "Youth, Family, & General Support Services") := by
  have main : ∀ s : String, hasSub "dv".data (pyNorm (Cell.str s)) = true →
      hasAnyKeyword (pyNorm (Cell.str s)) veteranKws = false →
      classify_category (Cell.str s) = "Safety & Anti-Violence" := by
    intro s hdv hvet
    have hsafety : hasAnyKeyword (pyNorm (Cell.str s)) safetyKws = true :=
      List.any_eq_true.mpr ⟨"dv", by decide, hdv⟩
    simp [classify_category, cellIsna, hvet, hsafety]
  refine ⟨main, fun s hadv => ?_⟩
  have hdv : hasSub "dv".data (pyNorm (Cell.str s)) = true :=
    hasSub_trans (by decide) hadv
  cases hvet : hasAnyKeyword (pyNorm (Cell.str s)) veteranKws
  · rw [main s hdv hvet]
    decide
  · have hv : classify_category (Cell.str s) = "Veteran Services" := by
      simp [classify_category, cellIsna, hvet]
    rw [hv]
    decide

/-- Witness for C10: "Advocacy" itself contains "dv", no Veteran
keyword, and classifies as "Safety & Anti-Violence", not Youth/Family. -/
theorem C10_dv_preempts_advocacy_witness :
    classify_category (Cell.str "Advocacy") = "Safety & Anti-Violence" :=
  C10_dv_preempts_advocacy.1 "Advocacy" (by decide) (by decide)
